import Mathlib

/-!
Verification development for the `cgb::sync` synchronization-policy class
(`src/framework/include/sync_vulkan.hpp`) and `cgb::semaphore_t`
(`src/framework/src/semaphore_vulkan.cpp`) of the Gears-Vk framework.

Shallow embedding conventions:
* `pipeline_stage`, `read_memory_access`, `write_memory_access` are opaque
  flag vocabularies in the source; they are embedded as `Nat` with the
  distinguished constants the code mentions.
* A `command_buffer_t` is observed only through
  `establish_global_memory_barrier`; it is embedded as the list of barrier
  records that have been established on it, in order.
* A `std::function` barrier hook can be empty, store a plain function
  pointer (on which `target<...>()` succeeds and identity comparison is
  possible), or store some other callable (lambda et al., on which
  `target<fn-pointer-type>()` returns null).  It is embedded as the
  inductive `barrier_hook`; function pointers are identified by a `Nat`
  identity and given their behaviour by the table `fn_of_ptr`.
-/

namespace cgb

/-- Opaque pipeline-stage flags (`cgb::pipeline_stage`, `vk::PipelineStageFlags`). -/
abbrev pipeline_stage := Nat

/-- The `pipeline_stage::all_commands` flag (value of `vk::PipelineStageFlagBits::eAllCommands`). -/
def pipeline_stage.all_commands : pipeline_stage := 0x00010000

/-- Opaque memory-access flags; `read_memory_access` and `write_memory_access`
are both flag sets over this vocabulary. -/
abbrev memory_access_flags := Nat

/-- The `memory_access::any_write_access` flag set (a distinguished opaque value). -/
def memory_access.any_write_access : memory_access_flags := 1

/-- The `memory_access::any_read_access` flag set (a distinguished opaque value). -/
def memory_access.any_read_access : memory_access_flags := 2

/-- One recorded call to `command_buffer_t::establish_global_memory_barrier`,
with its four arguments (source stage, destination stage, source access,
destination access).  Accesses are optional in the hook signatures; the
non-optional `memory_access::...` arguments of the default handlers arrive
here wrapped in `some`. -/
structure global_memory_barrier where
  srcStage : pipeline_stage
  dstStage : pipeline_stage
  srcAccess : Option memory_access_flags
  dstAccess : Option memory_access_flags
  deriving DecidableEq, Repr

/-- A command buffer, observed as the ordered list of global memory barriers
established on it. -/
abbrev command_buffer_t := List global_memory_barrier

/-- The barrier primitive `command_buffer_t::establish_global_memory_barrier`:
records one barrier on the buffer. -/
def command_buffer_t.establish_global_memory_barrier
    (cb : command_buffer_t) (srcStage dstStage : pipeline_stage)
    (srcAccess dstAccess : Option memory_access_flags) : command_buffer_t :=
  cb ++ [{ srcStage := srcStage, dstStage := dstStage,
           srcAccess := srcAccess, dstAccess := dstAccess }]

namespace sync

/-- `sync::default_handler_before_operation` (sync_vulkan.hpp, lines 36-44):
establishes a global memory barrier from `all_commands` / `any_write_access`
to the given destination stage / destination access. -/
def default_handler_before_operation (aCommandBuffer : command_buffer_t)
    (aDestinationStage : pipeline_stage)
    (aDestinationAccess : Option memory_access_flags) : command_buffer_t :=
  aCommandBuffer.establish_global_memory_barrier
    pipeline_stage.all_commands aDestinationStage
    (some memory_access.any_write_access) aDestinationAccess

/-- `sync::default_handler_after_operation` (sync_vulkan.hpp, lines 46-54):
establishes a global memory barrier from the given source stage / source
access to `all_commands` / `any_read_access`. -/
def default_handler_after_operation (aCommandBuffer : command_buffer_t)
    (aSourceStage : pipeline_stage)
    (aSourceAccess : Option memory_access_flags) : command_buffer_t :=
  aCommandBuffer.establish_global_memory_barrier
    aSourceStage pipeline_stage.all_commands
    aSourceAccess (some memory_access.any_read_access)

/-- Function-pointer identity of `sync::steal_before_handler`. -/
def steal_before_handler_ptr : Nat := 0

/-- Function-pointer identity of `sync::steal_after_handler`. -/
def steal_after_handler_ptr : Nat := 10

/-- Function-pointer identity of `sync::default_handler_before_operation`
when stored in a `std::function`. -/
def default_handler_before_ptr : Nat := 1

/-- Function-pointer identity of `sync::default_handler_after_operation`
when stored in a `std::function`. -/
def default_handler_after_ptr : Nat := 11

/-- Behaviour of the function pointers that may be stored in a barrier hook.
`steal_before_handler` and `steal_after_handler` have empty bodies (no-ops);
the two default handlers establish their conservative barriers; any other
function-pointer identity is some unrelated handler (modelled as a no-op:
no such pointer is ever stored by this component). -/
def fn_of_ptr (p : Nat) (cb : command_buffer_t) (stage : pipeline_stage)
    (access : Option memory_access_flags) : command_buffer_t :=
  if p = steal_before_handler_ptr then cb
  else if p = steal_after_handler_ptr then cb
  else if p = default_handler_before_ptr then
    default_handler_before_operation cb stage access
  else if p = default_handler_after_ptr then
    default_handler_after_operation cb stage access
  else cb

/-- A stored `std::function` barrier hook: empty, a plain function pointer
(with observable identity `p` — this is what `target<fn_ptr_t>()` recovers),
or any other callable (a lambda etc., on which `target<fn_ptr_t>()` is null). -/
inductive barrier_hook where
  | unset
  | fptr (p : Nat)
  | closure (f : command_buffer_t → pipeline_stage → Option memory_access_flags → command_buffer_t)

/-- Invoking a stored hook: a function pointer runs via `fn_of_ptr`, any
other callable runs itself.  (An empty `std::function` is never invoked by
the dispatch code; invoking it is modelled as the identity.) -/
def barrier_hook.run : barrier_hook → command_buffer_t → pipeline_stage →
    Option memory_access_flags → command_buffer_t
  | .unset, cb, _, _ => cb
  | .fptr p, cb, stage, access => fn_of_ptr p cb stage access
  | .closure f, cb, stage, access => f cb stage access

/-- Whether the `std::function` is non-empty (its `operator bool`). -/
def barrier_hook.isSet : barrier_hook → Bool
  | .unset => false
  | _ => true

/-- `sync::is_before_handler_stolen` (sync_vulkan.hpp, lines 20-23):
`target<steal_before_handler_t>()` is non-null exactly when a plain function
pointer is stored; the recovered pointer is then compared against
`steal_before_handler` by identity. -/
def is_before_handler_stolen : barrier_hook → Bool
  | .fptr p => if p = steal_before_handler_ptr then true else false
  | _ => false

/-- `sync::is_after_handler_stolen` (sync_vulkan.hpp, lines 24-27):
identity comparison of a recovered function pointer against
`steal_after_handler`. -/
def is_after_handler_stolen : barrier_hook → Bool
  | .fptr p => if p = steal_after_handler_ptr then true else false
  | _ => false

end sync

/-- A semaphore handle (opaque; identified by a `Nat`). -/
abbrev semaphore := Nat

/-- A device queue (opaque; identified by a `Nat`). -/
abbrev device_queue := Nat

/-- A window (opaque; identified by a `Nat`). -/
abbrev window := Nat

/-- Identity of a stored `std::function<void(semaphore)>` lifetime sink. -/
abbrev semaphore_handler := Nat

/-- Identity of a stored `std::function<void(command_buffer)>` lifetime sink. -/
abbrev command_buffer_handler := Nat

/-- The state of a `cgb::sync` object: the private fields of sync_vulkan.hpp,
lines 144-150, with the source's default member initializers (`= false` for
`mNoSyncRequired`; empty `std::function` / `std::vector` / `std::optional`
for the rest).  `std::function` sinks are embedded by their identity wrapped
in `Option` (`none` = empty). -/
structure sync where
  mNoSyncRequired : Bool := false
  mSemaphoreSignalAfterAndLifetimeHandler : Option semaphore_handler := none
  mWaitBeforeSemaphores : List semaphore := []
  mCommandBufferLifetimeHandler : Option command_buffer_handler := none
  mEstablishBarrierBeforeOperationCallback : sync.barrier_hook := .unset
  mEstablishBarrierAfterOperationCallback : sync.barrier_hook := .unset
  mQueueToUse : Option device_queue := none

namespace sync

/-- The `sync::sync_type` enumeration (sync_vulkan.hpp, line 15). -/
inductive sync_type where
  | not_required
  | via_wait_idle
  | via_semaphore
  | via_barrier
  deriving DecidableEq, Repr

/-- A default-constructed `sync` (the `sync() = default` constructor applies
the default member initializers of lines 144-150). -/
def default_constructed : sync := {}

/-- Modelled from the spec: the body of the factory `sync::not_required` is
not under src/.  Per section 4.3 the resulting policy carries no queue and no
callbacks; the flag `mNoSyncRequired` is set so that the policy reads as the
`not_required` strategy, distinctly from default construction. -/
def not_required : sync := { mNoSyncRequired := true }

/-- Modelled from the spec: the body of the factory `sync::wait_idle` is not
under src/.  Per section 4.3 the resulting policy has no callbacks and its
queue binding is set later or via hint, so no field departs from its
default. -/
def wait_idle : sync := {}

/-- Modelled from the spec: the body of the factory `sync::with_semaphores`
is not under src/.  Per section 4.3 the signal sink is stored and the wait
list is stored verbatim. -/
def with_semaphores (aSignalledAfterOperation : semaphore_handler)
    (aWaitBeforeOperation : List semaphore := []) : sync :=
  { mSemaphoreSignalAfterAndLifetimeHandler := some aSignalledAfterOperation,
    mWaitBeforeSemaphores := aWaitBeforeOperation }

/-- Modelled from the spec: the semaphore lifetime sink auto-derived by
`with_semaphores_on_current_frame` to defer destruction until the window's
current frame retires (falling back to process-wide frame tracking when no
window is given).  Only its identity matters to the claims. -/
def frame_semaphore_handler : Option window → semaphore_handler
  | some w => 1000 + w
  | none => 999

/-- Modelled from the spec: the body of `sync::with_semaphores_on_current_frame`
is not under src/.  Per section 4.3 it is the Semaphore strategy with an
auto-derived signal sink and the wait list stored verbatim. -/
def with_semaphores_on_current_frame (aWaitBeforeOperation : List semaphore := [])
    (aWindow : Option window := none) : sync :=
  { mSemaphoreSignalAfterAndLifetimeHandler := some (frame_semaphore_handler aWindow),
    mWaitBeforeSemaphores := aWaitBeforeOperation }

/-- Modelled from the spec: the body of the factory `sync::with_barriers` is
not under src/; the default arguments of the two hooks are those of the
declaration in sync_vulkan.hpp, lines 79-83 (`= {}` for the before-hook and
`= default_handler_after_operation` for the after-hook).  Per section 4.3
the command-buffer lifetime sink and the two hooks are stored. -/
def with_barriers (aCommandBufferLifetimeHandler : command_buffer_handler)
    (aEstablishBarrierBeforeOperation : barrier_hook := .unset)
    (aEstablishBarrierAfterOperation : barrier_hook := .fptr default_handler_after_ptr) : sync :=
  { mCommandBufferLifetimeHandler := some aCommandBufferLifetimeHandler,
    mEstablishBarrierBeforeOperationCallback := aEstablishBarrierBeforeOperation,
    mEstablishBarrierAfterOperationCallback := aEstablishBarrierAfterOperation }

/-- Modelled from the spec: the command-buffer lifetime sink auto-derived by
`with_barriers_on_current_frame` from the window's swap chain.  Only its
identity matters to the claims. -/
def frame_command_buffer_handler : Option window → command_buffer_handler
  | some w => 1500 + w
  | none => 1499

/-- Modelled from the spec: the body of `sync::with_barriers_on_current_frame`
is not under src/; the hook default arguments are those of the declaration in
sync_vulkan.hpp, lines 88-92.  Per section 4.3 it is the Barrier strategy
with an auto-derived command-buffer sink. -/
def with_barriers_on_current_frame
    (aEstablishBarrierBeforeOperation : barrier_hook := .unset)
    (aEstablishBarrierAfterOperation : barrier_hook := .fptr default_handler_after_ptr)
    (aWindow : Option window := none) : sync :=
  { mCommandBufferLifetimeHandler := some (frame_command_buffer_handler aWindow),
    mEstablishBarrierBeforeOperationCallback := aEstablishBarrierBeforeOperation,
    mEstablishBarrierAfterOperationCallback := aEstablishBarrierAfterOperation }

/-- Modelled from the spec: the command-buffer lifetime sink of an auxiliary
policy, which hands the subordinate command buffers over to the master sync
handler (section 4.3: lifetime handled along with the master). -/
def auxiliary_command_buffer_handler (aMasterSync : sync) : command_buffer_handler :=
  2000 + aMasterSync.mCommandBufferLifetimeHandler.getD 0

/-- Modelled from the spec: the body of `sync::auxiliary` is not under src/.
Per section 4.3 it installs the two given hooks as-is on the subordinate
policy (Barrier strategy) and mutates the master to additionally take
responsibility for the subordinate command buffers; the result is the pair
(subordinate policy, updated master). -/
def auxiliary (aMasterSync : sync)
    (aEstablishBarrierBeforeOperation aEstablishBarrierAfterOperation : barrier_hook) :
    sync × sync :=
  ({ mCommandBufferLifetimeHandler := some (auxiliary_command_buffer_handler aMasterSync),
     mEstablishBarrierBeforeOperationCallback := aEstablishBarrierBeforeOperation,
     mEstablishBarrierAfterOperationCallback := aEstablishBarrierAfterOperation },
   { aMasterSync with
     mCommandBufferLifetimeHandler := some (auxiliary_command_buffer_handler aMasterSync) })

/-- Modelled from the spec: the body of `sync::get_sync_type` is not under
src/.  The dispatch is derived from the factory/strategy table of section
4.3 together with the field/strategy correspondence of section 3: a stored
semaphore sink means Semaphore, a stored command-buffer sink means Barrier,
the no-sync flag means NotRequired, anything else means WaitIdle. -/
def get_sync_type (s : sync) : sync_type :=
  if s.mSemaphoreSignalAfterAndLifetimeHandler.isSome then .via_semaphore
  else if s.mCommandBufferLifetimeHandler.isSome then .via_barrier
  else if s.mNoSyncRequired then .not_required
  else .via_wait_idle

/-- Modelled from the spec: the body of `sync::on_queue` is not under src/.
Per section 4.6 it is the explicit binding, which always wins (it overwrites
unconditionally). -/
def on_queue (s : sync) (aQueue : device_queue) : sync :=
  { s with mQueueToUse := some aQueue }

/-- Modelled from the spec: the body of `sync::set_queue_hint` is not under
src/.  Per section 4.6 a hint is used only if no binding exists and never
overwrites an explicit `on_queue` binding. -/
def set_queue_hint (s : sync) (aQueueRecommendation : device_queue) : sync :=
  if s.mQueueToUse.isSome then s
  else { s with mQueueToUse := some aQueueRecommendation }

/-- Modelled from the spec: the body of `sync::queue_to_use` is not under
src/.  Per section 4.6 it reads the binding and fails as a precondition
violation when none exists — embedded as `Option` with `none` standing for
the failure. -/
def queue_to_use (s : sync) : Option device_queue :=
  s.mQueueToUse

/-- Modelled from the spec: the body of
`sync::establish_barrier_before_the_operation` is not under src/.  Per
section 4.5: a stolen hook is a no-op, an unset hook falls back to the
Default Barrier Policy before-function, any other hook is invoked with the
same arguments. -/
def establish_barrier_before_the_operation (s : sync)
    (aCommandBuffer : command_buffer_t)
    (aDestinationPipelineStages : pipeline_stage)
    (aDestinationMemoryStages : Option memory_access_flags) : command_buffer_t :=
  if is_before_handler_stolen s.mEstablishBarrierBeforeOperationCallback then
    aCommandBuffer
  else if s.mEstablishBarrierBeforeOperationCallback.isSet then
    s.mEstablishBarrierBeforeOperationCallback.run aCommandBuffer
      aDestinationPipelineStages aDestinationMemoryStages
  else
    default_handler_before_operation aCommandBuffer
      aDestinationPipelineStages aDestinationMemoryStages

/-- Modelled from the spec: the body of
`sync::establish_barrier_after_the_operation` is not under src/.  Per
section 4.5: a stolen hook is a no-op, an unset hook falls back to the
Default Barrier Policy after-function, any other hook is invoked with the
same arguments. -/
def establish_barrier_after_the_operation (s : sync)
    (aCommandBuffer : command_buffer_t)
    (aSourcePipelineStages : pipeline_stage)
    (aSourceMemoryStages : Option memory_access_flags) : command_buffer_t :=
  if is_after_handler_stolen s.mEstablishBarrierAfterOperationCallback then
    aCommandBuffer
  else if s.mEstablishBarrierAfterOperationCallback.isSet then
    s.mEstablishBarrierAfterOperationCallback.run aCommandBuffer
      aSourcePipelineStages aSourceMemoryStages
  else
    default_handler_after_operation aCommandBuffer
      aSourcePipelineStages aSourceMemoryStages

/-- The observable effects of one `submit_and_sync` call: the queue and
buffer submitted, the semaphores waited on (in order), the semaphore
signalled (if any), the sink invocations (sink identity with its argument),
and whether the queue was idle-waited. -/
structure submit_effects where
  submittedQueue : device_queue
  submittedBuffer : command_buffer_t
  waitSemaphores : List semaphore
  signalSemaphore : Option semaphore
  semaphoreSinkCalls : List (semaphore_handler × semaphore)
  commandBufferSinkCalls : List (command_buffer_handler × command_buffer_t)
  idleWaited : Bool
  deriving DecidableEq, Repr

/-- Modelled from the spec: the body of `sync::submit_and_sync` is not under
src/.  Per section 4.4 it dispatches on the strategy: NotRequired submits
directly; WaitIdle submits and blocks until the queue is idle; Semaphore
submits with the stored wait list as wait dependencies and a newly created
semaphore (`aFreshSemaphore`, produced by the external semaphore-creation
primitive) as the signal target, then hands that semaphore to the signal
sink; Barrier submits and hands the buffer to the lifetime sink.  A missing
queue binding is the precondition violation of section 7 (`none`). -/
def submit_and_sync (s : sync) (aCommandBuffer : command_buffer_t)
    (aFreshSemaphore : semaphore) : Option submit_effects :=
  match s.mQueueToUse with
  | none => none
  | some q =>
    match get_sync_type s with
    | .not_required =>
      some { submittedQueue := q, submittedBuffer := aCommandBuffer,
             waitSemaphores := [], signalSemaphore := none,
             semaphoreSinkCalls := [], commandBufferSinkCalls := [],
             idleWaited := false }
    | .via_wait_idle =>
      some { submittedQueue := q, submittedBuffer := aCommandBuffer,
             waitSemaphores := [], signalSemaphore := none,
             semaphoreSinkCalls := [], commandBufferSinkCalls := [],
             idleWaited := true }
    | .via_semaphore =>
      some { submittedQueue := q, submittedBuffer := aCommandBuffer,
             waitSemaphores := s.mWaitBeforeSemaphores,
             signalSemaphore := some aFreshSemaphore,
             semaphoreSinkCalls :=
               [(s.mSemaphoreSignalAfterAndLifetimeHandler.getD 0, aFreshSemaphore)],
             commandBufferSinkCalls := [], idleWaited := false }
    | .via_barrier =>
      some { submittedQueue := q, submittedBuffer := aCommandBuffer,
             waitSemaphores := [], signalSemaphore := none,
             semaphoreSinkCalls := [],
             commandBufferSinkCalls :=
               [(s.mCommandBufferLifetimeHandler.getD 0, aCommandBuffer)],
             idleWaited := false }

/-- Whether the Semaphore-strategy field group (the semaphore signal sink) is
populated on a policy. -/
def semaphore_group_populated (s : sync) : Bool :=
  s.mSemaphoreSignalAfterAndLifetimeHandler.isSome

/-- Whether the Barrier-strategy field group (the command-buffer lifetime
sink) is populated on a policy. -/
def barrier_group_populated (s : sync) : Bool :=
  s.mCommandBufferLifetimeHandler.isSome

/-- Exactly one of the two strategy-specific field groups is populated. -/
def exactly_one_group_populated (s : sync) : Bool :=
  xor (semaphore_group_populated s) (barrier_group_populated s)

end sync

/-- The `vk::PipelineStageFlagBits::eAllCommands` flag value. -/
def eAllCommands : Nat := 0x00010000

/-- The state of a `cgb::semaphore_t`: the opaque create-info and semaphore
handle (embedded as `Nat`, value-initialized to `0`), the wait stage for the
next command, and the optional custom deleter.  The deleter member is an
`std::optional` holding a `std::function<void()>`, embedded as
`Option (Option Nat)`: the outer `Option` is `has_value()`, the inner is
whether the held function is non-empty, with the callable identified by a
`Nat`. -/
structure semaphore_t where
  mCreateInfo : Nat
  mSemaphore : Nat
  mSemaphoreWaitStageForNextCommand : Nat
  mCustomDeleter : Option (Option Nat)

namespace semaphore_t

/-- The default constructor `semaphore_t::semaphore_t()`
(semaphore_vulkan.cpp, lines 5-11): value-initializes the create-info and
the handle, sets the wait stage to `eAllCommands`, and leaves the custom
deleter absent. -/
def default_construct : semaphore_t :=
  { mCreateInfo := 0, mSemaphore := 0,
    mSemaphoreWaitStageForNextCommand := eAllCommands,
    mCustomDeleter := none }

/-- `semaphore_t::set_semaphore_wait_stage` (semaphore_vulkan.cpp, lines
25-29): assigns the stage and returns `*this` — in the state-passing
embedding, the updated object. -/
def set_semaphore_wait_stage (s : semaphore_t) (aStage : Nat) : semaphore_t :=
  { s with mSemaphoreWaitStageForNextCommand := aStage }

/-- The destructor `semaphore_t::~semaphore_t()` (semaphore_vulkan.cpp,
lines 13-23), observed as the pair (custom-deleter invocations, the object
state at the moment the remaining members start being destroyed): when the
deleter is present (`has_value()`) and the held function non-empty, it is
invoked and then `reset()`; otherwise nothing happens. -/
def destructor (s : semaphore_t) : List Nat × semaphore_t :=
  match s.mCustomDeleter with
  | some (some f) => ([f], { s with mCustomDeleter := none })
  | _ => ([], s)

/-- `semaphore_t::create` (semaphore_vulkan.cpp, lines 31-43):
default-construct, assign a fresh create-info, run the optional
config-altering function, then create the semaphore handle (the external
`createSemaphoreUnique` primitive, which produces `aFreshHandle`). -/
def create (aAlterConfigBeforeCreation : Option (semaphore_t → semaphore_t))
    (aFreshHandle : Nat) : semaphore_t :=
  let result : semaphore_t := default_construct
  let result : semaphore_t := { result with mCreateInfo := 0 }
  let result : semaphore_t :=
    match aAlterConfigBeforeCreation with
    | some f => f result
    | none => result
  { result with mSemaphore := aFreshHandle }

end semaphore_t

end cgb

namespace cgb

/-- C1: for every destination stage `S` and optional destination read-access
`A`, `default_handler_before_operation(buffer, S, A)` establishes exactly
one global memory barrier, whose source stage is `all_commands` and whose
source access is `any_write_access`, passing `S` and `A` through unchanged
as destination stage/access; symmetrically,
`default_handler_after_operation(buffer, S, A)` establishes exactly one
global memory barrier whose destination stage is `all_commands` and whose
destination access is `any_read_access`, passing `S` and `A` through
unchanged as source stage/access. -/
theorem C1_default_handlers (cb cb2 : command_buffer_t) (S S2 : pipeline_stage)
    (A A2 : Option memory_access_flags) :
    sync.default_handler_before_operation cb S A =
      cb ++ [{ srcStage := pipeline_stage.all_commands, dstStage := S,
               srcAccess := some memory_access.any_write_access, dstAccess := A }] ∧
    sync.default_handler_after_operation cb2 S2 A2 =
      cb2 ++ [{ srcStage := S2, dstStage := pipeline_stage.all_commands,
                srcAccess := A2, dstAccess := some memory_access.any_read_access }] :=
  ⟨rfl, rfl⟩

/-- C2: `is_before_handler_stolen(h)` returns true exactly when the stored
callable is the function pointer `steal_before_handler` (identity
comparison), and `is_after_handler_stolen(h)` exactly when it is
`steal_after_handler`; every other hook — an empty function, a closure, or
any other function pointer such as the default handlers — yields false. -/
theorem C2_stolen_detection (h : sync.barrier_hook) :
    (sync.is_before_handler_stolen h = true ↔
      h = .fptr sync.steal_before_handler_ptr) ∧
    (sync.is_after_handler_stolen h = true ↔
      h = .fptr sync.steal_after_handler_ptr) := by
  constructor
  · cases h with
    | unset => simp [sync.is_before_handler_stolen]
    | closure f => simp [sync.is_before_handler_stolen]
    | fptr p =>
      by_cases hp : p = sync.steal_before_handler_ptr
      · subst hp; simp [sync.is_before_handler_stolen]
      · simp [sync.is_before_handler_stolen, hp]
  · cases h with
    | unset => simp [sync.is_after_handler_stolen]
    | closure f => simp [sync.is_after_handler_stolen]
    | fptr p =>
      by_cases hp : p = sync.steal_after_handler_ptr
      · subst hp; simp [sync.is_after_handler_stolen]
      · simp [sync.is_after_handler_stolen, hp]

/-- C3: `establish_barrier_before_the_operation` (and symmetrically
`establish_barrier_after_the_operation`) is a three-way dispatch on the
stored hook: the corresponding stolen-handler sentinel yields no barrier
insertion (the buffer is returned untouched); an unset hook invokes the
Default Barrier Policy function for that direction with the same buffer,
stage and access; any other hook (closure or other function pointer) is
itself invoked with those same arguments. -/
theorem C3_establish_barrier_dispatch (s : sync) (cb : command_buffer_t)
    (st : pipeline_stage) (ra wa : Option memory_access_flags) :
    (sync.is_before_handler_stolen s.mEstablishBarrierBeforeOperationCallback = true →
      s.establish_barrier_before_the_operation cb st ra = cb) ∧
    (s.mEstablishBarrierBeforeOperationCallback = .unset →
      s.establish_barrier_before_the_operation cb st ra =
        sync.default_handler_before_operation cb st ra) ∧
    (∀ f, s.mEstablishBarrierBeforeOperationCallback = .closure f →
      s.establish_barrier_before_the_operation cb st ra = f cb st ra) ∧
    (∀ p, p ≠ sync.steal_before_handler_ptr →
      s.mEstablishBarrierBeforeOperationCallback = .fptr p →
      s.establish_barrier_before_the_operation cb st ra = sync.fn_of_ptr p cb st ra) ∧
    (sync.is_after_handler_stolen s.mEstablishBarrierAfterOperationCallback = true →
      s.establish_barrier_after_the_operation cb st wa = cb) ∧
    (s.mEstablishBarrierAfterOperationCallback = .unset →
      s.establish_barrier_after_the_operation cb st wa =
        sync.default_handler_after_operation cb st wa) ∧
    (∀ f, s.mEstablishBarrierAfterOperationCallback = .closure f →
      s.establish_barrier_after_the_operation cb st wa = f cb st wa) ∧
    (∀ p, p ≠ sync.steal_after_handler_ptr →
      s.mEstablishBarrierAfterOperationCallback = .fptr p →
      s.establish_barrier_after_the_operation cb st wa = sync.fn_of_ptr p cb st wa) := by
  refine ⟨fun h1 => ?_, fun h2 => ?_, fun f h3 => ?_, fun p hp h4 => ?_,
          fun h5 => ?_, fun h6 => ?_, fun f h7 => ?_, fun p hp h8 => ?_⟩
  · simp [sync.establish_barrier_before_the_operation, h1]
  · simp [sync.establish_barrier_before_the_operation, h2,
          sync.is_before_handler_stolen, sync.barrier_hook.isSet]
  · simp [sync.establish_barrier_before_the_operation, h3,
          sync.is_before_handler_stolen, sync.barrier_hook.isSet,
          sync.barrier_hook.run]
  · simp [sync.establish_barrier_before_the_operation, h4,
          sync.is_before_handler_stolen, sync.barrier_hook.isSet,
          sync.barrier_hook.run, hp]
  · simp [sync.establish_barrier_after_the_operation, h5]
  · simp [sync.establish_barrier_after_the_operation, h6,
          sync.is_after_handler_stolen, sync.barrier_hook.isSet]
  · simp [sync.establish_barrier_after_the_operation, h7,
          sync.is_after_handler_stolen, sync.barrier_hook.isSet,
          sync.barrier_hook.run]
  · simp [sync.establish_barrier_after_the_operation, h8,
          sync.is_after_handler_stolen, sync.barrier_hook.isSet,
          sync.barrier_hook.run, hp]

/-- C3 witness: the three dispatch outcomes at concrete inputs — a stolen
hook leaves the buffer untouched, an unset hook produces exactly the
default handler's barrier, in both directions. -/
theorem C3_establish_barrier_dispatch_witness :
    sync.establish_barrier_before_the_operation
      { mEstablishBarrierBeforeOperationCallback := .fptr sync.steal_before_handler_ptr }
      [] 3 none = [] ∧
    sync.establish_barrier_before_the_operation {} [] 3 none =
      sync.default_handler_before_operation [] 3 none ∧
    sync.establish_barrier_after_the_operation
      { mEstablishBarrierAfterOperationCallback := .fptr sync.steal_after_handler_ptr }
      [] 3 none = [] ∧
    sync.establish_barrier_after_the_operation {} [] 3 none =
      sync.default_handler_after_operation [] 3 none :=
  ⟨(C3_establish_barrier_dispatch
      { mEstablishBarrierBeforeOperationCallback := .fptr sync.steal_before_handler_ptr }
      [] 3 none none).1 rfl,
   (C3_establish_barrier_dispatch {} [] 3 none none).2.1 rfl,
   (C3_establish_barrier_dispatch
      { mEstablishBarrierAfterOperationCallback := .fptr sync.steal_after_handler_ptr }
      [] 3 none none).2.2.2.2.1 rfl,
   (C3_establish_barrier_dispatch {} [] 3 none none).2.2.2.2.2.1 rfl⟩

/-- C4 counterexample: the claim asserts that every factory of section 4.3,
`not_required` included, populates exactly one strategy-specific field
group; but `not_required()` populates neither the semaphore group nor the
barrier group. -/
theorem C4_counterexample :
    sync.exactly_one_group_populated sync.not_required = false ∧
    sync.get_sync_type sync.not_required = .not_required := by
  exact ⟨rfl, rfl⟩

/-- C4 (amended): every factory's `get_sync_type()` yields exactly the
strategy of section 4.3; the semaphore-strategy factories populate exactly
the semaphore field group, the barrier-strategy factories exactly the
command-buffer field group, while `not_required` and `wait_idle` populate
neither group. -/
theorem C4_factory_strategies (sink : semaphore_handler)
    (cbsink : command_buffer_handler) (waits : List semaphore)
    (w : Option window) (m : sync) (hb ha : sync.barrier_hook) :
    sync.get_sync_type sync.not_required = .not_required ∧
    sync.semaphore_group_populated sync.not_required = false ∧
    sync.barrier_group_populated sync.not_required = false ∧
    sync.get_sync_type sync.wait_idle = .via_wait_idle ∧
    sync.semaphore_group_populated sync.wait_idle = false ∧
    sync.barrier_group_populated sync.wait_idle = false ∧
    sync.get_sync_type (sync.with_semaphores sink waits) = .via_semaphore ∧
    sync.semaphore_group_populated (sync.with_semaphores sink waits) = true ∧
    sync.exactly_one_group_populated (sync.with_semaphores sink waits) = true ∧
    sync.get_sync_type (sync.with_semaphores_on_current_frame waits w) = .via_semaphore ∧
    sync.exactly_one_group_populated (sync.with_semaphores_on_current_frame waits w) = true ∧
    sync.get_sync_type (sync.with_barriers cbsink hb ha) = .via_barrier ∧
    sync.barrier_group_populated (sync.with_barriers cbsink hb ha) = true ∧
    sync.exactly_one_group_populated (sync.with_barriers cbsink hb ha) = true ∧
    sync.get_sync_type (sync.with_barriers_on_current_frame hb ha w) = .via_barrier ∧
    sync.exactly_one_group_populated (sync.with_barriers_on_current_frame hb ha w) = true ∧
    sync.get_sync_type (sync.auxiliary m hb ha).1 = .via_barrier ∧
    sync.exactly_one_group_populated (sync.auxiliary m hb ha).1 = true :=
  ⟨rfl, rfl, rfl, rfl, rfl, rfl, rfl, rfl, rfl, rfl, rfl, rfl, rfl, rfl,
   rfl, rfl, rfl, rfl⟩

/-- C5: on a policy built by `with_semaphores(sink, wait_list)` with a bound
queue, `submit_and_sync(buffer)` submits the buffer to that queue with every
semaphore of the wait list, in order, as wait dependencies, with the newly
created semaphore as the signal target, and invokes the sink exactly once
with that newly created semaphore. -/
theorem C5_with_semaphores_submit (sink : semaphore_handler)
    (waits : List semaphore) (q : device_queue) (cb : command_buffer_t)
    (freshSem : semaphore) :
    sync.submit_and_sync (sync.on_queue (sync.with_semaphores sink waits) q) cb freshSem =
      some { submittedQueue := q, submittedBuffer := cb,
             waitSemaphores := waits, signalSemaphore := some freshSem,
             semaphoreSinkCalls := [(sink, freshSem)],
             commandBufferSinkCalls := [], idleWaited := false } :=
  rfl

/-- C6: a policy built by `with_barriers(cmdbuf_sink)` with no explicit
hooks stores, already at construction time, the Default Barrier Policy's
after-function (the function pointer `default_handler_after_operation`,
whose invocation is that default) as its after hook, while its before hook
is left unset at construction and only falls back to the Default Barrier
Policy's before-function when the barrier-establish operation is called. -/
theorem C6_with_barriers_default_hooks (cbsink : command_buffer_handler)
    (cb : command_buffer_t) (st : pipeline_stage)
    (ra wa : Option memory_access_flags) :
    (sync.with_barriers cbsink).mEstablishBarrierAfterOperationCallback =
      .fptr sync.default_handler_after_ptr ∧
    sync.barrier_hook.run
      (sync.with_barriers cbsink).mEstablishBarrierAfterOperationCallback cb st wa =
      sync.default_handler_after_operation cb st wa ∧
    (sync.with_barriers cbsink).mEstablishBarrierBeforeOperationCallback = .unset ∧
    (sync.with_barriers cbsink).establish_barrier_before_the_operation cb st ra =
      sync.default_handler_before_operation cb st ra :=
  ⟨rfl, rfl, rfl, rfl⟩

/-- C7: with no queue binding, `queue_to_use()` fails as a precondition
violation (`none`, never a valid queue); with a binding it returns the bound
queue; an explicit `on_queue` binding takes precedence over any
`set_queue_hint` suggestion, whether the hint comes after or before the
explicit binding, while a hint does establish the binding when no explicit
one exists. -/
theorem C7_queue_binding (s : sync) (q hq : device_queue) :
    (s.mQueueToUse = none → sync.queue_to_use s = none) ∧
    (∀ q0, s.mQueueToUse = some q0 → sync.queue_to_use s = some q0) ∧
    sync.queue_to_use (sync.on_queue s q) = some q ∧
    sync.queue_to_use (sync.set_queue_hint (sync.on_queue s q) hq) = some q ∧
    sync.queue_to_use (sync.on_queue (sync.set_queue_hint s hq) q) = some q ∧
    (s.mQueueToUse = none → sync.queue_to_use (sync.set_queue_hint s hq) = some hq) := by
  refine ⟨fun h1 => h1, fun q0 h2 => h2, rfl, rfl, rfl, fun h3 => ?_⟩
  simp [sync.set_queue_hint, sync.queue_to_use, h3]

/-- C7 witness: on a fresh `wait_idle` policy (no binding) the read fails;
after an explicit binding to queue 5 a later hint 7 does not overwrite; a
hint alone establishes the binding. -/
theorem C7_queue_binding_witness :
    sync.queue_to_use sync.wait_idle = none ∧
    sync.queue_to_use (sync.set_queue_hint (sync.on_queue sync.wait_idle 5) 7) = some 5 ∧
    sync.queue_to_use (sync.set_queue_hint sync.wait_idle 7) = some 7 :=
  ⟨(C7_queue_binding sync.wait_idle 5 7).1 rfl,
   (C7_queue_binding sync.wait_idle 5 7).2.2.2.1,
   (C7_queue_binding sync.wait_idle 5 7).2.2.2.2.2 rfl⟩

/-- C8 counterexample: `get_sync_type()` on a default-constructed policy
(the default member initializers of sync_vulkan.hpp, lines 144-150, with
`mNoSyncRequired = false`) yields `via_wait_idle`, not `not_required` as the
claim states. -/
theorem C8_counterexample :
    ¬ (sync.get_sync_type sync.default_constructed = .not_required) := by
  decide

/-- C8 (amended): a default-constructed sync policy has internal state
distinct from the one produced by the `not_required()` factory — its
`mNoSyncRequired` flag is `false` (the default member initializer of line
144) where the factory's is `true` — but its state coincides with
`wait_idle()`'s, so `get_sync_type()` on it yields `via_wait_idle` rather
than `not_required`. -/
theorem C8_default_construction_state :
    sync.default_constructed.mNoSyncRequired = false ∧
    sync.not_required.mNoSyncRequired = true ∧
    sync.default_constructed ≠ sync.not_required ∧
    sync.default_constructed = sync.wait_idle ∧
    sync.get_sync_type sync.default_constructed = .via_wait_idle :=
  ⟨rfl, rfl,
   fun hcontra => Bool.noConfusion (congrArg sync.mNoSyncRequired hcontra),
   rfl, rfl⟩

/-- C9: a default-constructed `semaphore_t` has its wait stage for the next
command initialized to the all-commands pipeline stage, and
`set_semaphore_wait_stage(S)` replaces exactly that field with `S`, leaving
every other field unchanged, the result being the same (updated) semaphore
object that the source returns by reference. -/
theorem C9_semaphore_wait_stage (s : semaphore_t) (S : Nat) :
    semaphore_t.default_construct.mSemaphoreWaitStageForNextCommand = eAllCommands ∧
    (s.set_semaphore_wait_stage S).mSemaphoreWaitStageForNextCommand = S ∧
    (s.set_semaphore_wait_stage S).mCreateInfo = s.mCreateInfo ∧
    (s.set_semaphore_wait_stage S).mSemaphore = s.mSemaphore ∧
    (s.set_semaphore_wait_stage S).mCustomDeleter = s.mCustomDeleter :=
  ⟨rfl, rfl, rfl, rfl, rfl⟩

/-- C10: destroying a `semaphore_t` whose custom deleter is present and
non-empty invokes that deleter exactly once and clears the member before
the remaining members are destroyed; a present-but-empty deleter is not
invoked; and with no deleter at all — as after default construction or
after `create` without a config-altering function — destruction invokes no
deleter. -/
theorem C10_destructor_deleter (s : semaphore_t) (f : Nat) :
    (s.mCustomDeleter = some (some f) →
      semaphore_t.destructor s = ([f], { s with mCustomDeleter := none })) ∧
    (s.mCustomDeleter = some none → semaphore_t.destructor s = ([], s)) ∧
    (s.mCustomDeleter = none → semaphore_t.destructor s = ([], s)) ∧
    semaphore_t.destructor semaphore_t.default_construct =
      ([], semaphore_t.default_construct) ∧
    (∀ hnd, semaphore_t.destructor (semaphore_t.create none hnd) =
      ([], semaphore_t.create none hnd)) := by
  refine ⟨fun h1 => ?_, fun h2 => ?_, fun h3 => ?_, rfl, fun hnd => rfl⟩
  · simp [semaphore_t.destructor, h1]
  · simp [semaphore_t.destructor, h2]
  · simp [semaphore_t.destructor, h3]

/-- C10 witness: a semaphore carrying the non-empty deleter 4 has it invoked
exactly once and cleared; a default-constructed semaphore's destruction
invokes no deleter. -/
theorem C10_destructor_deleter_witness :
    semaphore_t.destructor
      { mCreateInfo := 0, mSemaphore := 0, mSemaphoreWaitStageForNextCommand := 0,
        mCustomDeleter := some (some 4) } =
      ([4], { mCreateInfo := 0, mSemaphore := 0,
              mSemaphoreWaitStageForNextCommand := 0, mCustomDeleter := none }) ∧
    semaphore_t.destructor semaphore_t.default_construct =
      ([], semaphore_t.default_construct) :=
  ⟨(C10_destructor_deleter
      { mCreateInfo := 0, mSemaphore := 0, mSemaphoreWaitStageForNextCommand := 0,
        mCustomDeleter := some (some 4) } 4).1 rfl,
   (C10_destructor_deleter semaphore_t.default_construct 4).2.2.2.1⟩

end cgb
